import Mathlib

/-!
Shallow embedding of the box-inventory accounting subsystem of the
GreenToGo application (`greentogo/core/models.py`).

The database is modelled as explicit lists of rows.  Read-only model
methods (`available_boxes`, `can_checkout`, `can_checkin`,
`can_tag_location`, `boxes_checked_out`) become pure functions of the
database state; row-creating methods (`tag_location`, `set_stock`,
`get_estimated_stock`) return the new database state together with the
Python return value.  Timestamps (`created_at`, Stripe period ends) are
naturals/integers; Django `auto_now_add` becomes an explicit `now`
argument.  Python exceptions become `Except` results.
-/

namespace GreenToGo

/-- A `Location` row.  `service` is a `CharField` with choices
`CHECKIN = 'IN'` and `CHECKOUT = 'OUT'`; at the database layer any
string may be stored, so we model it as `String`. -/
structure Location where
  id : Nat
  service : String
  deriving Repr, DecidableEq

/-- `Location.CHECKIN = 'IN'`. -/
def Location.CHECKIN : String := "IN"

/-- `Location.CHECKOUT = 'OUT'`. -/
def Location.CHECKOUT : String := "OUT"

/-- A `LocationTag` row: one container movement.  The foreign key to the
location is kept denormalised (the whole row), the subscription foreign
key as an id. -/
structure LocationTag where
  subscription : Nat
  location : Location
  created_at : Nat
  deriving Repr, DecidableEq

/-- A `LocationStockCount` row: a physical inventory snapshot.
`count` is a `PositiveIntegerField` (non-negative). -/
structure LocationStockCount where
  location : Nat
  created_at : Nat
  count : Nat
  deriving Repr, DecidableEq

/-- The fields of a `Plan` row that participate in `Plan.save`. -/
structure PlanFields where
  name : String
  amount : Nat
  deriving Repr, DecidableEq

/-- A `Plan` row.  `_loaded_values` (set by `Plan.from_db`) is modelled
as an optional snapshot of the loaded field values. -/
structure Plan where
  name : String
  available : Bool
  amount : Nat
  number_of_boxes : Nat
  stripe_id : Option String
  loaded_values : Option PlanFields
  deriving Repr, DecidableEq

/-- A `Subscription` row. -/
structure Subscription where
  id : Nat
  plan : Option Plan
  stripe_id : Option String
  stripe_status : String
  ends_at : Option Int
  deriving Repr, DecidableEq

/-- The mutable database state relevant to the accounting subsystem. -/
structure DB where
  tags : List LocationTag
  stockCounts : List LocationStockCount
  deriving Repr, DecidableEq

/-- Python truthiness of a nullable `CharField`: `None` and `""` are
falsy. -/
def strTruthy : Option String → Bool
  | none => false
  | some s => s ≠ ""

/-- `Subscription.number_of_boxes`: the plan's box count, or 0 when the
subscription has no plan. -/
def Subscription.number_of_boxes (s : Subscription) : Nat :=
  match s.plan with
  | some p => p.number_of_boxes
  | none => 0

/-- `Subscription.max_boxes` is an alias of `number_of_boxes`. -/
def Subscription.max_boxes (s : Subscription) : Nat :=
  s.number_of_boxes

/-- The value of one `LocationTag` in the `available_boxes` aggregate:
`Case(When(location__service=CHECKOUT, then=1),
      When(location__service=CHECKIN, then=-1), default=1)`. -/
def tagValue (t : LocationTag) : Int :=
  if t.location.service = Location.CHECKOUT then 1
  else if t.location.service = Location.CHECKIN then -1
  else 1

/-- The tags of a subscription:
`LocationTag.objects.filter(subscription=self)`. -/
def tagsOf (db : DB) (s : Subscription) : List LocationTag :=
  db.tags.filter (fun t => t.subscription == s.id)

/-- `Subscription.available_boxes`: entitlement minus the signed
aggregate over the subscription's tags (`Sum(...)` of `tagValue`; the
empty aggregate is `None`, turned into 0 by `or 0`, which coincides with
the empty list sum). -/
def Subscription.available_boxes (s : Subscription) (db : DB) : Int :=
  (s.number_of_boxes : Int) - ((tagsOf db s).map tagValue).sum

/-- `Subscription.boxes_checked_out`. -/
def Subscription.boxes_checked_out (s : Subscription) (db : DB) : Int :=
  (s.number_of_boxes : Int) - s.available_boxes db

/-- `Subscription.can_checkout(number_of_boxes=1)`. -/
def Subscription.can_checkout (s : Subscription) (db : DB) (n : Nat) : Bool :=
  s.available_boxes db ≥ (n : Int)

/-- `Subscription.can_checkin(number_of_boxes=1)`. -/
def Subscription.can_checkin (s : Subscription) (db : DB) (n : Nat) : Bool :=
  s.available_boxes db + (n : Int) ≤ (s.number_of_boxes : Int)

/-- `Subscription.can_tag_location(location, number_of_boxes=1)`. -/
def Subscription.can_tag_location (s : Subscription) (db : DB) (loc : Location)
    (n : Nat) : Bool :=
  if loc.service = Location.CHECKIN then s.can_checkin db n
  else s.can_checkout db n

/-- `Subscription.tag_location(location, number_of_boxes=1)`: creates
`number_of_boxes` new `LocationTag` rows unconditionally and returns
them; no guard is consulted. -/
def Subscription.tag_location (s : Subscription) (db : DB) (loc : Location)
    (n : Nat) (now : Nat) : List LocationTag × DB :=
  let newTags := List.replicate n ⟨s.id, loc, now⟩
  (newTags, { db with tags := db.tags ++ newTags })

/-- `Location.set_stock(count)`: creates a new `LocationStockCount` row. -/
def Location.set_stock (loc : Location) (db : DB) (count : Nat) (now : Nat) :
    LocationStockCount × DB :=
  let lc : LocationStockCount := ⟨loc.id, now, count⟩
  (lc, { db with stockCounts := db.stockCounts ++ [lc] })

/-- The stock counts of a location:
`LocationStockCount.objects.filter(location=self)`. -/
def stockCountsOf (db : DB) (loc : Location) : List LocationStockCount :=
  db.stockCounts.filter (fun c => c.location == loc.id)

/-- The more recent of two stock counts (the left one on a timestamp
tie). -/
def laterCount (a b : LocationStockCount) : LocationStockCount :=
  if b.created_at > a.created_at then b else a

/-- `order_by('-created_at')[0]`: an element of maximal `created_at`
(ties between equal timestamps are unspecified by the database; we pick
one deterministically). -/
def latestStockCount : List LocationStockCount → Option LocationStockCount
  | [] => none
  | c :: rest =>
    match latestStockCount rest with
    | none => some c
    | some b => some (laterCount c b)

/-- `LocationTag.objects.filter(location=self, created_at__gt=ts).count()`. -/
def boxesMovedAfter (db : DB) (loc : Location) (ts : Nat) : Nat :=
  (db.tags.filter (fun t => t.location.id == loc.id && ts < t.created_at)).length

/-- `Location.get_estimated_stock()`: baseline = latest stock count,
created lazily with count 0 when none exists (a side-effecting read);
result = baseline ∓ tags since the baseline, sign by service type. -/
def Location.get_estimated_stock (loc : Location) (db : DB) (now : Nat) :
    Int × DB :=
  match latestStockCount (stockCountsOf db loc) with
  | some last_count =>
    let boxes_moved := boxesMovedAfter db loc last_count.created_at
    (if loc.service = Location.CHECKOUT then (last_count.count : Int) - boxes_moved
     else (last_count.count : Int) + boxes_moved, db)
  | none =>
    let last_count : LocationStockCount := ⟨loc.id, now, 0⟩
    let db' : DB := { db with stockCounts := db.stockCounts ++ [last_count] }
    let boxes_moved := boxesMovedAfter db' loc last_count.created_at
    (if loc.service = Location.CHECKOUT then (0 : Int) - boxes_moved
     else (0 : Int) + boxes_moved, db')

/-- `CannotChangeException({"model": self, "field": field})`. -/
structure CannotChangeException where
  model : Plan
  field : String
  deriving Repr, DecidableEq

/-- `Plan.is_changed(field_name)`: false when the instance was not
loaded from the database, otherwise compares the loaded value with the
current one.  We specialise to the two fields `save` inspects. -/
def Plan.is_changed_amount (p : Plan) : Bool :=
  match p.loaded_values with
  | none => false
  | some lv => !(lv.amount == p.amount)

/-- `Plan.is_changed('name')`. -/
def Plan.is_changed_name (p : Plan) : Bool :=
  match p.loaded_values with
  | none => false
  | some lv => !(lv.name == p.name)

/-- `Plan.save()`: with a truthy `stripe_id`, a changed `amount` raises
`CannotChangeException` before the row is written; otherwise the row is
written (a changed `name` additionally updates the remote Stripe plan,
which has no local state).  Without a `stripe_id`, a fresh one is
generated (`freshId` stands for the `shortuuid` draw) and the row is
written. -/
def Plan.save (p : Plan) (freshId : String) : Except CannotChangeException Plan :=
  if strTruthy p.stripe_id then
    if p.is_changed_amount then
      Except.error ⟨p, "amount"⟩
    else
      Except.ok p
  else
    Except.ok { p with stripe_id := some freshId }

/-- The fields of a Stripe subscription object used by
`update_from_stripe_sub`. -/
structure StripeSubscription where
  id : String
  status : String
  current_period_end : Int
  deriving Repr, DecidableEq

/-- `SubscriptionUpdateException(subscription, stripe_subscription,
message)`; the exception carries `self` at raise time. -/
structure SubscriptionUpdateException where
  subscription : Subscription
  stripe_subscription : StripeSubscription
  message : String
  deriving Repr, DecidableEq

/-- Seconds in three days: `timedelta(days=3)` added to
`current_period_end`. -/
def threeDays : Int := 3 * 86400

/-- `Subscription.update_from_stripe_sub(stripe_subscription,
force=False)`: raises when a truthy `stripe_id` is present and `force`
is not set — before any field is assigned; otherwise sets `stripe_id`,
`stripe_status` and `ends_at` from the Stripe subscription and saves. -/
def Subscription.update_from_stripe_sub (s : Subscription)
    (ss : StripeSubscription) (force : Bool) :
    Except SubscriptionUpdateException Subscription :=
  if strTruthy s.stripe_id ∧ ¬force then
    Except.error ⟨s, ss, "Subscription already has a Stripe subscription"⟩
  else
    Except.ok { s with
      stripe_id := some ss.id
      stripe_status := ss.status
      ends_at := some (ss.current_period_end + threeDays) }

end GreenToGo

namespace GreenToGo

/-- Count of a subscription's tags at CHECKOUT locations. -/
def countOUT (l : List LocationTag) : Nat :=
  (l.filter (fun t => t.location.service == Location.CHECKOUT)).length

/-- Count of a subscription's tags at CHECKIN locations. -/
def countIN (l : List LocationTag) : Nat :=
  (l.filter (fun t => t.location.service == Location.CHECKIN)).length

/-- Concrete sample rows used to instantiate the theorems below. -/
def locOUT : Location := ⟨1, "OUT"⟩

def locIN : Location := ⟨2, "IN"⟩

def locODD : Location := ⟨3, "DROP"⟩

def planW : Plan := ⟨"standard", true, 2500, 2, some "standard-ABCDEF", none⟩

def subW : Subscription := ⟨1, some planW, none, "active", none⟩

def subNoPlan : Subscription := ⟨2, none, none, "active", none⟩

def dbW : DB :=
  ⟨[⟨1, locOUT, 10⟩, ⟨1, locIN, 11⟩, ⟨2, locIN, 12⟩], [⟨1, 5, 7⟩]⟩

def dbEmpty : DB := ⟨[], []⟩

def dbIN : DB := ⟨[⟨2, locIN, 5⟩], []⟩

def planLoaded : Plan :=
  ⟨"standard", true, 3000, 2, some "standard-XYZQRS", some ⟨"standard", 2500⟩⟩

def subStripe : Subscription := ⟨3, none, some "sub_123", "active", none⟩

def ssW : StripeSubscription := ⟨"sub_456", "active", 1700000000⟩

theorem OUT_ne_IN : Location.CHECKOUT ≠ Location.CHECKIN := by decide

theorem IN_ne_OUT : Location.CHECKIN ≠ Location.CHECKOUT := by decide

theorem sum_tagValue_eq (l : List LocationTag)
    (h : ∀ t ∈ l, t.location.service = Location.CHECKOUT ∨
        t.location.service = Location.CHECKIN) :
    (l.map tagValue).sum = (countOUT l : Int) - countIN l := by
  induction l with
  | nil => simp [countOUT, countIN]
  | cons t rest ih =>
    have ih' := ih (fun x hx => h x (List.mem_cons_of_mem _ hx))
    rcases h t (List.mem_cons_self _ _) with hs | hs
    · simp only [countOUT, countIN] at ih' ⊢
      simp [tagValue, List.filter_cons, hs, beq_iff_eq, OUT_ne_IN, ih']
      omega
    · simp only [countOUT, countIN] at ih' ⊢
      simp [tagValue, List.filter_cons, hs, beq_iff_eq, IN_ne_OUT, ih']
      omega

theorem sum_tagValue_ge (l : List LocationTag) :
    (countOUT l : Int) - countIN l ≤ (l.map tagValue).sum := by
  induction l with
  | nil => simp [countOUT, countIN]
  | cons t rest ih =>
    simp only [countOUT, countIN] at ih ⊢
    by_cases hOUT : t.location.service = Location.CHECKOUT
    · simp [tagValue, List.filter_cons, hOUT, beq_iff_eq, OUT_ne_IN]
      omega
    · by_cases hIN : t.location.service = Location.CHECKIN
      · simp [tagValue, List.filter_cons, hIN, beq_iff_eq, IN_ne_OUT, hOUT]
        omega
      · simp [tagValue, List.filter_cons, beq_iff_eq, hOUT, hIN]
        omega

theorem laterCount_cases (a b : LocationStockCount) :
    laterCount a b = a ∨ laterCount a b = b := by
  unfold laterCount
  split
  · exact Or.inr rfl
  · exact Or.inl rfl

theorem laterCount_le_left (a b : LocationStockCount) :
    a.created_at ≤ (laterCount a b).created_at := by
  unfold laterCount
  split <;> omega

theorem laterCount_le_right (a b : LocationStockCount) :
    b.created_at ≤ (laterCount a b).created_at := by
  unfold laterCount
  split <;> omega

theorem latestStockCount_eq_none (l : List LocationStockCount) :
    latestStockCount l = none ↔ l = [] := by
  cases l with
  | nil => simp [latestStockCount]
  | cons c rest =>
    simp only [latestStockCount]
    cases hr : latestStockCount rest <;> simp [hr]

theorem latestStockCount_mem (l : List LocationStockCount)
    (lc : LocationStockCount) (h : latestStockCount l = some lc) : lc ∈ l := by
  induction l generalizing lc with
  | nil => simp [latestStockCount] at h
  | cons c rest ih =>
    simp only [latestStockCount] at h
    cases hr : latestStockCount rest with
    | none =>
      simp only [hr, Option.some_inj] at h
      rw [← h]
      exact List.mem_cons_self _ _
    | some b =>
      simp only [hr, Option.some_inj] at h
      rcases laterCount_cases c b with hcb | hcb
      · rw [← h, hcb]
        exact List.mem_cons_self _ _
      · rw [← h, hcb]
        exact List.mem_cons_of_mem _ (ih b hr)

theorem latestStockCount_max (l : List LocationStockCount)
    (lc : LocationStockCount) (h : latestStockCount l = some lc) :
    ∀ c ∈ l, c.created_at ≤ lc.created_at := by
  induction l generalizing lc with
  | nil => simp
  | cons c rest ih =>
    simp only [latestStockCount] at h
    intro x hx
    cases hr : latestStockCount rest with
    | none =>
      have hrest : rest = [] := (latestStockCount_eq_none rest).mp hr
      simp only [hr, Option.some_inj] at h
      subst hrest
      rcases List.mem_cons.mp hx with hxc | hxr
      · rw [hxc, ← h]
      · simp at hxr
    | some b =>
      simp only [hr, Option.some_inj] at h
      rcases List.mem_cons.mp hx with hxc | hxr
      · rw [hxc, ← h]
        exact laterCount_le_left c b
      · calc x.created_at ≤ b.created_at := ih b hr x hxr
          _ ≤ lc.created_at := h ▸ laterCount_le_right c b

theorem available_boxes_append (db : DB) (s : Subscription)
    (ts : List LocationTag) :
    s.available_boxes { db with tags := db.tags ++ ts } =
      s.available_boxes db -
        ((ts.filter (fun t => t.subscription == s.id)).map tagValue).sum := by
  simp only [Subscription.available_boxes, tagsOf, List.filter_append,
    List.map_append, List.sum_append]
  ring

theorem replicate_tag_sum (s : Subscription) (loc : Location) (n now : Nat)
    (h : loc.service = Location.CHECKOUT) :
    (((List.replicate n (⟨s.id, loc, now⟩ : LocationTag)).filter
        (fun t => t.subscription == s.id)).map tagValue).sum = (n : Int) := by
  induction n with
  | zero => simp
  | succ k ih =>
    rw [List.replicate_succ]
    simp only [List.filter_cons]
    simp [tagValue, h, ih]
    omega

/-- Claim C1: for every subscription whose tags all sit at CHECKOUT or
CHECKIN locations, `available_boxes` equals `number_of_boxes` minus the
signed event sum, i.e. `number_of_boxes - (checkouts - checkins)`. -/
theorem claim_C1 (db : DB) (s : Subscription)
    (h : ∀ t ∈ tagsOf db s, t.location.service = Location.CHECKOUT ∨
        t.location.service = Location.CHECKIN) :
    s.available_boxes db =
      (s.number_of_boxes : Int) -
        ((countOUT (tagsOf db s) : Int) - countIN (tagsOf db s)) := by
  unfold Subscription.available_boxes
  rw [sum_tagValue_eq (tagsOf db s) h]

/-- Witness for C1 at a concrete database. -/
theorem claim_C1_witness :
    (∀ t ∈ tagsOf dbW subW, t.location.service = Location.CHECKOUT ∨
        t.location.service = Location.CHECKIN) ∧
    Subscription.available_boxes subW dbW =
      (Subscription.number_of_boxes subW : Int) -
        ((countOUT (tagsOf dbW subW) : Int) - countIN (tagsOf dbW subW)) :=
  ⟨by decide, claim_C1 dbW subW (by decide)⟩

/-- Claim C4: `can_checkout n` holds iff `available_boxes ≥ n`,
`can_checkin n` holds iff `available_boxes + n ≤ number_of_boxes`, and
`can_tag_location` dispatches on the location's service. -/
theorem claim_C4 (db : DB) (s : Subscription) (loc : Location) (n : Nat) :
    (s.can_checkout db n = true ↔ (n : Int) ≤ s.available_boxes db) ∧
    (s.can_checkin db n = true ↔
      s.available_boxes db + (n : Int) ≤ (s.number_of_boxes : Int)) ∧
    s.can_tag_location db loc n =
      (if loc.service = Location.CHECKIN then s.can_checkin db n
       else s.can_checkout db n) := by
  refine ⟨?_, ?_, rfl⟩
  · simp [Subscription.can_checkout, ge_iff_le]
  · simp [Subscription.can_checkin]

/-- Witness for C4 at a concrete database. -/
theorem claim_C4_witness :
    (Subscription.can_checkout subW dbW 1 = true ↔
      (1 : Int) ≤ Subscription.available_boxes subW dbW) ∧
    (Subscription.can_checkin subW dbW 1 = true ↔
      Subscription.available_boxes subW dbW + (1 : Int) ≤
        (Subscription.number_of_boxes subW : Int)) ∧
    Subscription.can_tag_location subW dbW locIN 1 =
      (if locIN.service = Location.CHECKIN then Subscription.can_checkin subW dbW 1
       else Subscription.can_checkout subW dbW 1) :=
  claim_C4 dbW subW locIN 1

/-- Claim C9: a tag whose location service is neither CHECKIN nor
CHECKOUT takes the default branch of the aggregate, contributing +1 to
the checked-out sum and so decreasing `available_boxes` by one. -/
theorem claim_C9 (db : DB) (s : Subscription) (t : LocationTag)
    (hsub : t.subscription = s.id)
    (hout : t.location.service ≠ Location.CHECKOUT)
    (hin : t.location.service ≠ Location.CHECKIN) :
    tagValue t = 1 ∧
    s.available_boxes { db with tags := db.tags ++ [t] } =
      s.available_boxes db - 1 := by
  have hv : tagValue t = 1 := by simp [tagValue, hout, hin]
  refine ⟨hv, ?_⟩
  rw [available_boxes_append]
  simp [List.filter_cons, hsub, hv]

/-- Witness for C9 at a concrete database. -/
theorem claim_C9_witness :
    tagValue ⟨2, locODD, 20⟩ = 1 ∧
    Subscription.available_boxes subNoPlan
        { dbEmpty with tags := dbEmpty.tags ++ [⟨2, locODD, 20⟩] } =
      Subscription.available_boxes subNoPlan dbEmpty - 1 :=
  claim_C9 dbEmpty subNoPlan ⟨2, locODD, 20⟩ rfl (by decide) (by decide)

/-- Claim C10: with no plan, `number_of_boxes` and `max_boxes` are 0,
`available_boxes` is the negated signed tag sum, and `can_checkout n`
(for n ≥ 1) forces checkins to exceed checkouts by at least n. -/
theorem claim_C10 (db : DB) (s : Subscription) (n : Nat)
    (hp : s.plan = none) :
    s.number_of_boxes = 0 ∧ s.max_boxes = 0 ∧
    s.available_boxes db = -((tagsOf db s).map tagValue).sum ∧
    (1 ≤ n → s.can_checkout db n = true →
      (countOUT (tagsOf db s) : Int) + n ≤ countIN (tagsOf db s)) := by
  have h0 : s.number_of_boxes = 0 := by
    simp [Subscription.number_of_boxes, hp]
  refine ⟨h0, by simp [Subscription.max_boxes, h0], ?_, ?_⟩
  · simp [Subscription.available_boxes, h0]
  · intro hn hc
    have hge := sum_tagValue_ge (tagsOf db s)
    simp [Subscription.can_checkout, Subscription.available_boxes, h0] at hc
    omega

/-- Witness for C10 at a concrete database. -/
theorem claim_C10_witness :
    Subscription.number_of_boxes subNoPlan = 0 ∧
    Subscription.max_boxes subNoPlan = 0 ∧
    Subscription.available_boxes subNoPlan dbIN =
      -((tagsOf dbIN subNoPlan).map tagValue).sum ∧
    (1 ≤ 1 → Subscription.can_checkout subNoPlan dbIN 1 = true →
      (countOUT (tagsOf dbIN subNoPlan) : Int) + 1 ≤
        countIN (tagsOf dbIN subNoPlan)) :=
  claim_C10 dbIN subNoPlan 1 rfl

/-- Claim C2: with at least one stock count at a location,
`get_estimated_stock` starts from the most recent count (maximal
`created_at`) and subtracts (CHECKOUT) or adds (CHECKIN and others) the
number of tags created strictly after that count. -/
theorem claim_C2 (db : DB) (loc : Location) (now : Nat)
    (h : stockCountsOf db loc ≠ []) :
    ∃ lc, latestStockCount (stockCountsOf db loc) = some lc ∧
      lc ∈ stockCountsOf db loc ∧
      (∀ c ∈ stockCountsOf db loc, c.created_at ≤ lc.created_at) ∧
      (loc.get_estimated_stock db now).1 =
        (if loc.service = Location.CHECKOUT
         then (lc.count : Int) - boxesMovedAfter db loc lc.created_at
         else (lc.count : Int) + boxesMovedAfter db loc lc.created_at) := by
  obtain ⟨lc, hlc⟩ : ∃ lc, latestStockCount (stockCountsOf db loc) = some lc := by
    cases hL : latestStockCount (stockCountsOf db loc) with
    | none => exact absurd ((latestStockCount_eq_none _).mp hL) h
    | some lc => exact ⟨lc, rfl⟩
  refine ⟨lc, hlc, latestStockCount_mem _ _ hlc,
    latestStockCount_max _ _ hlc, ?_⟩
  simp only [Location.get_estimated_stock, hlc]

/-- Witness for C2 at a concrete database. -/
theorem claim_C2_witness :
    ∃ lc, latestStockCount (stockCountsOf dbW locOUT) = some lc ∧
      lc ∈ stockCountsOf dbW locOUT ∧
      (∀ c ∈ stockCountsOf dbW locOUT, c.created_at ≤ lc.created_at) ∧
      (Location.get_estimated_stock locOUT dbW 100).1 =
        (if locOUT.service = Location.CHECKOUT
         then (lc.count : Int) - boxesMovedAfter dbW locOUT lc.created_at
         else (lc.count : Int) + boxesMovedAfter dbW locOUT lc.created_at) :=
  claim_C2 dbW locOUT 100 (by decide)

/-- Claim C3: `tag_location` is unguarded: it always creates exactly n
new tags for the subscription at the location, touching no other table;
overdrawing a CHECKOUT location drives `available_boxes` negative. -/
theorem claim_C3 (db : DB) (s : Subscription) (loc : Location) (n now : Nat)
    (hn : 1 ≤ n) :
    (s.tag_location db loc n now).1.length = n ∧
    (s.tag_location db loc n now).2.tags =
      db.tags ++ List.replicate n ⟨s.id, loc, now⟩ ∧
    (s.tag_location db loc n now).2.stockCounts = db.stockCounts ∧
    (loc.service = Location.CHECKOUT → s.available_boxes db < (n : Int) →
      s.available_boxes (s.tag_location db loc n now).2 < 0) := by
  refine ⟨by simp [Subscription.tag_location], rfl, rfl, ?_⟩
  intro hsvc hlt
  have happ := available_boxes_append db s
    (List.replicate n ⟨s.id, loc, now⟩)
  rw [replicate_tag_sum s loc n now hsvc] at happ
  simp only [Subscription.tag_location]
  rw [happ]
  omega

/-- Witness for C3 at a concrete database: three checkouts against an
entitlement of two. -/
theorem claim_C3_witness :
    (Subscription.tag_location subW dbEmpty locOUT 3 40).1.length = 3 ∧
    (Subscription.tag_location subW dbEmpty locOUT 3 40).2.tags =
      dbEmpty.tags ++ List.replicate 3 ⟨subW.id, locOUT, 40⟩ ∧
    (Subscription.tag_location subW dbEmpty locOUT 3 40).2.stockCounts =
      dbEmpty.stockCounts ∧
    (locOUT.service = Location.CHECKOUT →
      Subscription.available_boxes subW dbEmpty < (3 : Int) →
      Subscription.available_boxes subW
        (Subscription.tag_location subW dbEmpty locOUT 3 40).2 < 0) :=
  claim_C3 dbEmpty subW locOUT 3 40 (by decide)

/-- Claim C5: `get_estimated_stock` creates a zero-count baseline row
exactly when the location has no stock count (and then returns ± the
number of tags dated after that new row); otherwise it changes
nothing. -/
theorem claim_C5 (db : DB) (loc : Location) (now : Nat) :
    (stockCountsOf db loc = [] →
      (loc.get_estimated_stock db now).2.stockCounts =
        db.stockCounts ++ [⟨loc.id, now, 0⟩] ∧
      (loc.get_estimated_stock db now).2.tags = db.tags ∧
      (loc.get_estimated_stock db now).1 =
        (if loc.service = Location.CHECKOUT
         then -(boxesMovedAfter db loc now : Int)
         else (boxesMovedAfter db loc now : Int))) ∧
    (stockCountsOf db loc ≠ [] →
      (loc.get_estimated_stock db now).2 = db) := by
  constructor
  · intro h
    have hn : latestStockCount (stockCountsOf db loc) = none := by
      rw [h]
      rfl
    simp only [Location.get_estimated_stock, hn]
    refine ⟨trivial, trivial, ?_⟩
    split <;> simp [boxesMovedAfter]
  · intro h
    obtain ⟨lc, hlc⟩ : ∃ lc, latestStockCount (stockCountsOf db loc) = some lc := by
      cases hL : latestStockCount (stockCountsOf db loc) with
      | none => exact absurd ((latestStockCount_eq_none _).mp hL) h
      | some lc => exact ⟨lc, rfl⟩
    simp only [Location.get_estimated_stock, hlc]

/-- Witness for C5 at a concrete database with no stock count. -/
theorem claim_C5_witness :
    stockCountsOf dbEmpty locIN = [] ∧
    ((Location.get_estimated_stock locIN dbEmpty 50).2.stockCounts =
        dbEmpty.stockCounts ++ [⟨locIN.id, 50, 0⟩] ∧
      (Location.get_estimated_stock locIN dbEmpty 50).2.tags = dbEmpty.tags ∧
      (Location.get_estimated_stock locIN dbEmpty 50).1 =
        (if locIN.service = Location.CHECKOUT
         then -(boxesMovedAfter dbEmpty locIN 50 : Int)
         else (boxesMovedAfter dbEmpty locIN 50 : Int))) :=
  ⟨by decide, (claim_C5 dbEmpty locIN 50).1 (by decide)⟩

/-- Claim C6: the subsystem's operations only append rows: existing
`LocationTag` and `LocationStockCount` rows are never modified or
deleted (the read-only operations are pure functions of the state by
construction). -/
theorem claim_C6 (db : DB) (s : Subscription) (loc : Location)
    (n now cnt : Nat) :
    ((s.tag_location db loc n now).2.tags =
        db.tags ++ (s.tag_location db loc n now).1 ∧
      (s.tag_location db loc n now).2.stockCounts = db.stockCounts) ∧
    ((loc.set_stock db cnt now).2.tags = db.tags ∧
      (loc.set_stock db cnt now).2.stockCounts =
        db.stockCounts ++ [(loc.set_stock db cnt now).1]) ∧
    ((loc.get_estimated_stock db now).2.tags = db.tags ∧
      ∃ appended, (loc.get_estimated_stock db now).2.stockCounts =
        db.stockCounts ++ appended) := by
  refine ⟨⟨rfl, rfl⟩, ⟨rfl, rfl⟩, ?_, ?_⟩
  · cases hL : latestStockCount (stockCountsOf db loc) <;>
      simp [Location.get_estimated_stock, hL]
  · cases hL : latestStockCount (stockCountsOf db loc) with
    | none =>
      exact ⟨[⟨loc.id, now, 0⟩], by simp [Location.get_estimated_stock, hL]⟩
    | some lc =>
      exact ⟨[], by simp [Location.get_estimated_stock, hL]⟩

/-- Witness for C6 at a concrete database. -/
theorem claim_C6_witness :
    ((Subscription.tag_location subW dbW locOUT 2 30).2.tags =
        dbW.tags ++ (Subscription.tag_location subW dbW locOUT 2 30).1 ∧
      (Subscription.tag_location subW dbW locOUT 2 30).2.stockCounts =
        dbW.stockCounts) ∧
    ((Location.set_stock locOUT dbW 4 30).2.tags = dbW.tags ∧
      (Location.set_stock locOUT dbW 4 30).2.stockCounts =
        dbW.stockCounts ++ [(Location.set_stock locOUT dbW 4 30).1]) ∧
    ((Location.get_estimated_stock locOUT dbW 30).2.tags = dbW.tags ∧
      ∃ appended, (Location.get_estimated_stock locOUT dbW 30).2.stockCounts =
        dbW.stockCounts ++ appended) :=
  claim_C6 dbW subW locOUT 2 30 4

/-- Claim C7: with a truthy `stripe_id`, `Plan.save` raises
`CannotChangeException` exactly when the loaded `amount` differs from
the current one, and the raise happens before the row write; with an
unchanged `amount`, no such exception is raised and the row is saved. -/
theorem claim_C7 (p : Plan) (freshId : String) (lv : PlanFields)
    (hs : strTruthy p.stripe_id = true) (hl : p.loaded_values = some lv) :
    (lv.amount ≠ p.amount →
      p.save freshId = Except.error ⟨p, "amount"⟩) ∧
    (lv.amount = p.amount → p.save freshId = Except.ok p) := by
  constructor
  · intro hne
    have hch : p.is_changed_amount = true := by
      simp [Plan.is_changed_amount, hl, hne]
    simp [Plan.save, hs, hch]
  · intro heq
    have hch : p.is_changed_amount = false := by
      simp [Plan.is_changed_amount, hl, heq]
    simp [Plan.save, hs, hch]

/-- Witness for C7 at a concrete plan whose amount was edited after
loading. -/
theorem claim_C7_witness :
    ((⟨"standard", 2500⟩ : PlanFields).amount ≠ planLoaded.amount →
      Plan.save planLoaded "fresh" = Except.error ⟨planLoaded, "amount"⟩) ∧
    ((⟨"standard", 2500⟩ : PlanFields).amount = planLoaded.amount →
      Plan.save planLoaded "fresh" = Except.ok planLoaded) :=
  claim_C7 planLoaded "fresh" ⟨"standard", 2500⟩ (by decide) rfl

/-- Claim C8: `update_from_stripe_sub` raises
`SubscriptionUpdateException` iff a truthy `stripe_id` is present and
`force` is false — before any field is assigned (the exception carries
the untouched subscription); otherwise the three fields are set from
the Stripe subscription and saved. -/
theorem claim_C8 (s : Subscription) (ss : StripeSubscription) (force : Bool) :
    ((strTruthy s.stripe_id = true ∧ force = false) →
      s.update_from_stripe_sub ss force =
        Except.error ⟨s, ss, "Subscription already has a Stripe subscription"⟩) ∧
    (¬(strTruthy s.stripe_id = true ∧ force = false) →
      s.update_from_stripe_sub ss force =
        Except.ok { s with
          stripe_id := some ss.id
          stripe_status := ss.status
          ends_at := some (ss.current_period_end + threeDays) }) := by
  constructor
  · rintro ⟨h1, h2⟩
    simp [Subscription.update_from_stripe_sub, h1, h2]
  · intro h
    rw [Subscription.update_from_stripe_sub, if_neg]
    intro hc
    refine h ⟨hc.1, ?_⟩
    cases force with
    | false => rfl
    | true => exact absurd rfl hc.2

/-- Witness for C8 at a concrete subscription that already has a Stripe
subscription, with force false. -/
theorem claim_C8_witness :
    ((strTruthy subStripe.stripe_id = true ∧ false = false) →
      Subscription.update_from_stripe_sub subStripe ssW false =
        Except.error
          ⟨subStripe, ssW, "Subscription already has a Stripe subscription"⟩) ∧
    (¬(strTruthy subStripe.stripe_id = true ∧ false = false) →
      Subscription.update_from_stripe_sub subStripe ssW false =
        Except.ok { subStripe with
          stripe_id := some ssW.id
          stripe_status := ssW.status
          ends_at := some (ssW.current_period_end + threeDays) }) :=
  claim_C8 subStripe ssW false
